import Mathlib

/-!
Shallow embedding of `bkapi_client_core/client.py` (bkapi-client-core SDK):
the request-context builder, the response-headers representer, and the
`BaseClient` request/response pipeline, together with theorems checking the
natural-language specification against this code.

Python dictionaries are modelled as association lists read through
first-match lookup, so an entry placed in front of another with the same key
shadows it, exactly as overwriting the key would in a real dictionary.
-/

namespace BkapiClientCore

/-- First-match lookup in an association list: the reading of a Python dict. -/
def dlookup (l : List (String × String)) (k : String) : Option String :=
  (l.find? (fun p => p.1 == k)).map Prod.snd

/-- Python `base.copy()` followed by `.update(upd)`, at the finite-map level:
with first-match lookup, putting `upd` in front makes its entries shadow
`base`, which is the mapping that copy-then-update produces. -/
def dictUpdate (base upd : List (String × String)) : List (String × String) :=
  upd ++ base

/-- A string key lowered character by character, the comparison key of a
`requests.structures.CaseInsensitiveDict`. -/
def lowerKey (s : String) : List Char :=
  s.data.map Char.toLower

/-- Case-insensitive first-match lookup: the reading of a
`requests.structures.CaseInsensitiveDict` (used for HTTP headers). -/
def ciGet (l : List (String × String)) (k : String) : Option String :=
  (l.find? (fun p => lowerKey p.1 == lowerKey k)).map Prod.snd

theorem dlookup_append (a b : List (String × String)) (k : String) :
    dlookup (a ++ b) k =
      match dlookup a k with
      | some v => some v
      | none => dlookup b k := by
  induction a with
  | nil => simp [dlookup]
  | cons p a ih =>
    by_cases h : p.1 == k
    · simp [dlookup, List.find?, h]
    · simp [dlookup, List.find?, h]
      simpa [dlookup] using ih

theorem ciGet_append (a b : List (String × String)) (k : String) :
    ciGet (a ++ b) k =
      match ciGet a k with
      | some v => some v
      | none => ciGet b k := by
  induction a with
  | nil => simp [ciGet]
  | cons p a ih =>
    by_cases h : lowerKey p.1 == lowerKey k
    · simp [ciGet, List.find?, h]
    · simp [ciGet, List.find?, h]
      simpa [ciGet] using ih

/-- Python truthiness of an optional dict: `None` and the empty dict are falsy. -/
def pyDictFalsy (d : Option (List (String × String))) : Bool :=
  match d with
  | none => true
  | some l => l.isEmpty

/-- A decoded JSON document, the result type of `response.json()`. -/
inductive Json where
  | null
  | boolean (b : Bool)
  | number (n : Int)
  | str (s : String)
  | arr (items : List Json)
  | obj (fields : List (String × Json))

/-- Modelled from the spec: `urljoin` lives in `bkapi_client_core.utils`,
which is not under src/. The spec says it joins the endpoint (a base
address) with the path, preserving the endpoint's trailing structure and
never producing a double slash. -/
def urljoin (endpoint path : String) : String :=
  if path = "" then endpoint
  else (endpoint.dropRightWhile (fun c => c = '/')) ++ "/" ++
    (path.dropWhile (fun c => c = '/'))

/-- A Python `KeyError` raised by a dict subscript on a missing key. -/
inductive BuildError where
  | keyError (key : String)

/-- The request context being built: the dict passed to the transport.
`none` in a field models the key being absent (or bound to `None`). -/
structure RequestContext where
  method : Option String
  url : Option String
  params : Option (List (String × String))
  json : Option (List (String × String))

/-- The operation context handed to `RequestContextBuilder.build`: the
`data` payload, the resolution `path` (default empty), and the remaining
keyword options, which form the initial request context. -/
structure OperationContext where
  data : Option (List (String × String))
  path : String
  request_context : RequestContext

namespace RequestContextBuilder

/-- `RequestContextBuilder.build_url`: sets `context["url"]` to
`urljoin(endpoint, path)`. -/
def build_url (context : RequestContext) (endpoint path : String) :
    RequestContext :=
  { context with url := some (urljoin endpoint path) }

/-- `RequestContextBuilder.build_data`: on falsy `data` returns at once;
otherwise reads `context["method"]` (a `KeyError` when the key is absent);
for GET/HEAD/OPTIONS merges `data` under the existing params
(`params = data.copy(); params.update(context.get("params") or {})`),
and for every other method sets `context["json"] = data`. -/
def build_data (context : RequestContext)
    (data : Option (List (String × String))) :
    Except BuildError RequestContext :=
  if pyDictFalsy data then Except.ok context
  else
    match context.method with
    | none => Except.error (BuildError.keyError "method")
    | some m =>
      if m = "GET" ∨ m = "HEAD" ∨ m = "OPTIONS" then
        Except.ok { context with
          params := some (dictUpdate (data.getD []) (context.params.getD [])) }
      else
        Except.ok { context with json := data }

/-- `RequestContextBuilder.build_request_context`: build the url, then
place the data. -/
def build_request_context (endpoint : String) (oc : OperationContext) :
    Except BuildError RequestContext :=
  build_data (build_url oc.request_context endpoint oc.path) oc.data

/-- `RequestContextBuilder.build`: unpacks the operation context into
`build_request_context`. -/
def build (endpoint : String) (oc : OperationContext) :
    Except BuildError RequestContext :=
  build_request_context endpoint oc

end RequestContextBuilder

/-- `ResponseHeadersRepresenter`: wraps a possibly-absent header mapping
(`None`, or a case-insensitive dict that may be empty). -/
structure ResponseHeadersRepresenter where
  headers : Option (List (String × String))

namespace ResponseHeadersRepresenter

/-- Python truthiness of `self._headers`: falsy when `None` or empty. -/
def isFalsy (r : ResponseHeadersRepresenter) : Bool :=
  match r.headers with
  | none => true
  | some hs => hs.isEmpty

/-- `_get_header`: the default when the mapping is falsy, otherwise
`self._headers.get(key, default)` (case-insensitive, as response headers
are a `CaseInsensitiveDict`). -/
def getHeader (r : ResponseHeadersRepresenter) (key default : String) :
    String :=
  if r.isFalsy then default
  else
    match ciGet (r.headers.getD []) key with
    | some v => v
    | none => default

/-- The `error_code` property. -/
def error_code (r : ResponseHeadersRepresenter) : String :=
  r.getHeader "X-Bkapi-Error-Code" ""

/-- The `error_message` property. -/
def error_message (r : ResponseHeadersRepresenter) : String :=
  r.getHeader "X-Bkapi-Error-Message" ""

/-- The `request_id` property. -/
def request_id (r : ResponseHeadersRepresenter) : String :=
  r.getHeader "X-Bkapi-Request-Id" ""

/-- The `has_apigateway_error` property: `bool(self.error_code)`. -/
def has_apigateway_error (r : ResponseHeadersRepresenter) : Bool :=
  r.error_code ≠ ""

/-- The `__str__` rendering: empty when the mapping is falsy, otherwise
`"request_id: %s, error_code: %s, %s"`. -/
def toStr (r : ResponseHeadersRepresenter) : String :=
  if r.isFalsy then ""
  else
    "request_id: " ++ r.request_id ++ ", error_code: " ++ r.error_code ++
      ", " ++ r.error_message

end ResponseHeadersRepresenter

/-- A transport `Response`: status code, reason phrase, url, headers, and
`body`, which models the outcome of `response.json()` — `some` when the
body decodes as JSON, `none` when decoding raises. -/
structure Response where
  status_code : Nat
  reason : String
  url : String
  headers : List (String × String)
  body : Option Json

/-- Whether `response.raise_for_status()` raises: client or server error
status (modelled from the external requests library: 400–599). -/
def isErrorStatus (code : Nat) : Bool :=
  decide (400 ≤ code ∧ code < 600)

/-- The `str(err)` message of the `HTTPError` raised by
`raise_for_status` (modelled from the external requests library). -/
def httpErrorMessage (r : Response) : String :=
  if r.status_code < 500 then
    toString r.status_code ++ " Client Error: " ++ r.reason ++
      " for url: " ++ r.url
  else
    toString r.status_code ++ " Server Error: " ++ r.reason ++
      " for url: " ++ r.url

/-- The typed errors raised by `_handle_response_content`
(`bkapi_client_core.exceptions`); each carries its message, the response
and the headers representer. -/
inductive ClientError where
  | APIGatewayResponseError (message : String) (response : Response)
      (response_headers_representer : ResponseHeadersRepresenter)
  | HTTPResponseError (message : String) (response : Response)
      (response_headers_representer : ResponseHeadersRepresenter)
  | JSONResponseError (message : String) (response : Response)
      (response_headers_representer : ResponseHeadersRepresenter)

/-- `BaseClient._handle_response_content`: `None` response gives `None`;
a gateway error header wins over everything; then `raise_for_status`;
then JSON decoding. -/
def handle_response_content (response : Option Response) :
    Except ClientError (Option Json) :=
  match response with
  | none => Except.ok none
  | some r =>
    let rep := ResponseHeadersRepresenter.mk (some r.headers)
    if rep.has_apigateway_error then
      Except.error (ClientError.APIGatewayResponseError
        ("Request bkapi error, " ++ rep.error_message) r rep)
    else if isErrorStatus r.status_code then
      Except.error (ClientError.HTTPResponseError (httpErrorMessage r) r rep)
    else
      match r.body with
      | some j => Except.ok (some j)
      | none => Except.error (ClientError.JSONResponseError
          "The response is not a valid JSON" r rep)

/-- `BaseClient.parse_response`: delegates to `_handle_response_content`;
a raised `RequestException` goes through `_handle_exception`, which logs
and re-raises the same exception unchanged. -/
def parse_response (response : Option Response) :
    Except ClientError (Option Json) :=
  match handle_response_content response with
  | Except.ok v => Except.ok v
  | Except.error err => Except.error err

/-- The object attached as `session.auth`. Modelled from the spec:
`BKApiAuthorization` lives in `bkapi_client_core.auth`, which is not under
src/; the spec describes it as an authorization-capability object exposing
`update(**fields)` that merges the given fields in. The `other`
constructor stands for any attached authorization object that is not a
`BKApiAuthorization`. -/
inductive SessionAuth where
  | bkapi (fields : List (String × String))
  | other (tag : String)

/-- `BaseClient.update_bkapi_authorization`: a `TypeError` when
`session.auth` is attached and is not a `BKApiAuthorization`; otherwise a
fresh `BKApiAuthorization()` is attached when none was, and the given
fields are merged in with `update`. Returns the new `session.auth`. -/
def update_bkapi_authorization (session_auth : Option SessionAuth)
    (auth : List (String × String)) : Except String (Option SessionAuth) :=
  match session_auth with
  | some (SessionAuth.other _) =>
    Except.error "session auth should be BKApiAuthorization"
  | some (SessionAuth.bkapi fields) =>
    Except.ok (some (SessionAuth.bkapi (dictUpdate fields auth)))
  | none =>
    Except.ok (some (SessionAuth.bkapi (dictUpdate [] auth)))

/-- `requests.sessions.merge_setting(request_setting, session_setting,
dict_class=CaseInsensitiveDict)` at the finite-map level (modelled from
the external requests library): start from the session setting and update
with the request setting, so the request setting wins; read through
case-insensitive lookup. -/
def merge_setting (request_setting session_setting :
    List (String × String)) : List (String × String) :=
  dictUpdate session_setting request_setting

/-- `BaseClient.update_headers`: `session.headers` becomes
`merge_setting(headers, session.headers, dict_class=CaseInsensitiveDict)`.
Returns the new `session.headers`. -/
def update_headers (session_headers headers : List (String × String)) :
    List (String × String) :=
  merge_setting headers session_headers

/-- What happens when `self.session.handle(**request_context)` is
invoked: a response, a raised `RequestException` (identified by a tag so
re-raising the same object is observable), or any other raised
exception. -/
inductive TransportResult where
  | success (r : Response)
  | requestExc (n : Nat)
  | otherExc (n : Nat)

/-- The exception escaping a `handle_request` call. -/
inductive PyExc where
  | endpointNotSet
  | requestExc (n : Nat)
  | otherExc (n : Nat)
deriving DecidableEq

/-- The result of one `handle_request` call. -/
inductive Outcome where
  | ok (r : Response)
  | raised (e : PyExc)

/-- The observable state of a `BaseClient` and its session: the configured
endpoint, the `_reuse_session_connection` flag, and counters of
`session.handle` invocations and `session.close()` invocations. -/
structure ClientState where
  endpoint : String
  reuse_session_connection : Bool
  handleCalls : Nat
  closeCalls : Nat

/-- `BaseClient.__init__(endpoint="")`: construction stores the endpoint
without checking it and performs no transport call. -/
def ClientState.init (endpoint : String) : ClientState :=
  { endpoint := endpoint, reuse_session_connection := false,
    handleCalls := 0, closeCalls := 0 }

/-- `BaseClient.handle_request`: inside the `try`,
`_get_request_context` raises `EndpointNotSetError` when the endpoint is
falsy, before `session.handle` is entered; on success
`_handle_response` logs and returns the response unchanged; a raised
`RequestException` is caught and `_handle_exception` logs and re-raises
the same exception; any other exception propagates. The `finally` block
closes the session unless `_reuse_session_connection` is set. -/
def handle_request (st : ClientState) (transport : TransportResult) :
    Outcome × ClientState :=
  let inner : Outcome × ClientState :=
    if st.endpoint = "" then
      (Outcome.raised PyExc.endpointNotSet, st)
    else
      let st1 := { st with handleCalls := st.handleCalls + 1 }
      match transport with
      | TransportResult.success r => (Outcome.ok r, st1)
      | TransportResult.requestExc n =>
        (Outcome.raised (PyExc.requestExc n), st1)
      | TransportResult.otherExc n =>
        (Outcome.raised (PyExc.otherExc n), st1)
  if inner.2.reuse_session_connection then inner
  else (inner.1, { inner.2 with closeCalls := inner.2.closeCalls + 1 })

/-- `BaseClient.__enter__`: sets `_reuse_session_connection`. -/
def clientEnter (st : ClientState) : ClientState :=
  { st with reuse_session_connection := true }

/-- `BaseClient.__exit__`: clears `_reuse_session_connection`, then
closes the session. -/
def clientExit (st : ClientState) : ClientState :=
  let st1 := { st with reuse_session_connection := false }
  { st1 with closeCalls := st1.closeCalls + 1 }

/-- A straight-line body of `handle_request` calls: later calls run only
while earlier ones return normally; the first escaping exception aborts
the rest, as in a Python `with` body. -/
def runCalls (st : ClientState) (ops : List TransportResult) :
    Option PyExc × ClientState :=
  match ops with
  | [] => (none, st)
  | t :: rest =>
    let step := handle_request st t
    match step.1 with
    | Outcome.ok _ => runCalls step.2 rest
    | Outcome.raised e => (some e, step.2)

/-- `with client: body` — enter the reuse scope, run the body, and run
`__exit__` whether or not an exception escaped the body. -/
def withReuseScope (st : ClientState) (ops : List TransportResult) :
    Option PyExc × ClientState :=
  let res := runCalls (clientEnter st) ops
  (res.1, clientExit res.2)

theorem getHeader_eq (hs : List (String × String)) (key : String) :
    (ResponseHeadersRepresenter.mk (some hs)).getHeader key "" =
      (ciGet hs key).getD "" := by
  cases hs with
  | nil => simp [ResponseHeadersRepresenter.getHeader,
      ResponseHeadersRepresenter.isFalsy, ciGet]
  | cons p rest =>
    simp only [ResponseHeadersRepresenter.getHeader,
      ResponseHeadersRepresenter.isFalsy, List.isEmpty_cons, if_false,
      Bool.false_eq_true, Option.getD]
    cases ciGet (p :: rest) key <;> simp [Option.getD]

/-- C7: `parse_response` on an absent response returns "no content"
(`None`) and raises nothing. -/
theorem claim7_parse_response_no_response :
    parse_response none = Except.ok none := rfl

/-- C6: the representer's `error_code` / `error_message` / `request_id`
return the reserved header's value, or the empty string when the header
or the whole mapping is absent; `has_apigateway_error` holds exactly when
`error_code` is non-empty; the rendering is
`"request_id: {id}, error_code: {code}, {message}"` and is empty when no
headers are present, so the representer of `None` has no gateway error
and renders as the empty string. -/
theorem claim6_headers_representer :
    (∀ hs : List (String × String),
      (ResponseHeadersRepresenter.mk (some hs)).error_code =
        (ciGet hs "X-Bkapi-Error-Code").getD "" ∧
      (ResponseHeadersRepresenter.mk (some hs)).error_message =
        (ciGet hs "X-Bkapi-Error-Message").getD "" ∧
      (ResponseHeadersRepresenter.mk (some hs)).request_id =
        (ciGet hs "X-Bkapi-Request-Id").getD "")
    ∧ ((ResponseHeadersRepresenter.mk none).error_code = "" ∧
       (ResponseHeadersRepresenter.mk none).error_message = "" ∧
       (ResponseHeadersRepresenter.mk none).request_id = "")
    ∧ (∀ r : ResponseHeadersRepresenter,
        r.has_apigateway_error = true ↔ r.error_code ≠ "")
    ∧ (∀ hs : List (String × String), hs ≠ [] →
        (ResponseHeadersRepresenter.mk (some hs)).toStr =
          "request_id: " ++
            (ResponseHeadersRepresenter.mk (some hs)).request_id ++
          ", error_code: " ++
            (ResponseHeadersRepresenter.mk (some hs)).error_code ++
          ", " ++ (ResponseHeadersRepresenter.mk (some hs)).error_message)
    ∧ ((ResponseHeadersRepresenter.mk none).has_apigateway_error = false ∧
       (ResponseHeadersRepresenter.mk none).toStr = "") := by
  refine ⟨?_, ?_, ?_, ?_, ?_⟩
  · intro hs
    exact ⟨getHeader_eq hs "X-Bkapi-Error-Code",
      getHeader_eq hs "X-Bkapi-Error-Message",
      getHeader_eq hs "X-Bkapi-Request-Id"⟩
  · refine ⟨rfl, rfl, rfl⟩
  · intro r
    simp [ResponseHeadersRepresenter.has_apigateway_error]
  · intro hs h
    simp [ResponseHeadersRepresenter.toStr,
      ResponseHeadersRepresenter.isFalsy, h]
  · exact ⟨rfl, rfl⟩

theorem claim6_witness :
    (ResponseHeadersRepresenter.mk
        (some [("X-Bkapi-Error-Code", "1000"),
               ("X-Bkapi-Error-Message", "invalid app")])).error_code =
      (ciGet [("X-Bkapi-Error-Code", "1000"),
              ("X-Bkapi-Error-Message", "invalid app")]
        "X-Bkapi-Error-Code").getD "" ∧
    ((ResponseHeadersRepresenter.mk
        (some [("X-Bkapi-Error-Code", "1000")])).has_apigateway_error =
          true ↔
      (ResponseHeadersRepresenter.mk
        (some [("X-Bkapi-Error-Code", "1000")])).error_code ≠ "") ∧
    (ResponseHeadersRepresenter.mk
        (some [("X-Bkapi-Request-Id", "abc")])).toStr =
      "request_id: " ++
        (ResponseHeadersRepresenter.mk
          (some [("X-Bkapi-Request-Id", "abc")])).request_id ++
      ", error_code: " ++
        (ResponseHeadersRepresenter.mk
          (some [("X-Bkapi-Request-Id", "abc")])).error_code ++
      ", " ++
        (ResponseHeadersRepresenter.mk
          (some [("X-Bkapi-Request-Id", "abc")])).error_message :=
  ⟨(claim6_headers_representer.1 _).1,
   claim6_headers_representer.2.2.1 _,
   claim6_headers_representer.2.2.2.1 _ (by decide)⟩

/-- C10: `update_headers` merges with the supplied headers winning: a key
present (case-insensitively) in the supplied headers keeps the supplied
value, and a key absent from them keeps the session's previous value. -/
theorem claim10_update_headers_precedence :
    (∀ (s h : List (String × String)) (k v : String),
      ciGet h k = some v → ciGet (update_headers s h) k = some v)
    ∧ (∀ (s h : List (String × String)) (k : String),
      ciGet h k = none → ciGet (update_headers s h) k = ciGet s k) := by
  constructor
  · intro s h k v hv
    have := ciGet_append h s k
    simp only [update_headers, merge_setting, dictUpdate]
    rw [this, hv]
  · intro s h k hnone
    have := ciGet_append h s k
    simp only [update_headers, merge_setting, dictUpdate]
    rw [this, hnone]

theorem claim10_witness :
    ciGet (update_headers [("X-Token", "old"), ("Keep", "yes")]
        [("x-token", "new")]) "X-TOKEN" = some "new" ∧
    ciGet (update_headers [("X-Token", "old"), ("Keep", "yes")]
        [("x-token", "new")]) "keep" = ciGet
          [("X-Token", "old"), ("Keep", "yes")] "keep" :=
  ⟨claim10_update_headers_precedence.1 _ _ "X-TOKEN" "new" (by decide),
   claim10_update_headers_precedence.2 _ _ "keep" (by decide)⟩

/-- C9: `update_bkapi_authorization` raises `TypeError` exactly when the
session already holds an authorization object that is not a
`BKApiAuthorization`; otherwise it returns normally with the session's
auth a `BKApiAuthorization` updated with the given fields, a fresh one
being created when none was attached. -/
theorem claim9_update_bkapi_authorization :
    (∀ (a : Option SessionAuth) (f : List (String × String)),
      update_bkapi_authorization a f =
          Except.error "session auth should be BKApiAuthorization" ↔
        ∃ t, a = some (SessionAuth.other t))
    ∧ (∀ (fields f : List (String × String)),
      update_bkapi_authorization (some (SessionAuth.bkapi fields)) f =
        Except.ok (some (SessionAuth.bkapi (dictUpdate fields f))))
    ∧ (∀ f : List (String × String),
      update_bkapi_authorization none f =
        Except.ok (some (SessionAuth.bkapi f))) := by
  refine ⟨?_, ?_, ?_⟩
  · intro a f
    cases a with
    | none => simp [update_bkapi_authorization]
    | some x =>
      cases x with
      | bkapi fields => simp [update_bkapi_authorization]
      | other t => simp [update_bkapi_authorization]
  · intro fields f
    rfl
  · intro f
    simp [update_bkapi_authorization, dictUpdate]

theorem claim9_witness :
    (update_bkapi_authorization (some (SessionAuth.other "basic"))
        [("bk_app_code", "demo")] =
      Except.error "session auth should be BKApiAuthorization") ∧
    update_bkapi_authorization
        (some (SessionAuth.bkapi [("bk_app_code", "demo")]))
        [("bk_app_secret", "s")] =
      Except.ok (some (SessionAuth.bkapi
        (dictUpdate [("bk_app_code", "demo")] [("bk_app_secret", "s")]))) ∧
    update_bkapi_authorization none [("bk_app_code", "demo")] =
      Except.ok (some (SessionAuth.bkapi [("bk_app_code", "demo")])) :=
  ⟨(claim9_update_bkapi_authorization.1 _ _).mpr ⟨"basic", rfl⟩,
   claim9_update_bkapi_authorization.2.1 _ _,
   claim9_update_bkapi_authorization.2.2 _⟩

/-- C2: with a non-empty data payload, for GET/HEAD/OPTIONS the data is
merged into the query params with the caller-supplied params winning on
key collision and the body left untouched; for every other method the
data becomes the JSON body and the params are left untouched; with a
falsy data payload `build_data` leaves the context unchanged. `build`
itself is `build_data` after `build_url`. -/
theorem claim2_build_data_placement :
    (∀ (ctx : RequestContext) (m : String) (d : List (String × String)),
      ctx.method = some m → d ≠ [] →
      ((m = "GET" ∨ m = "HEAD" ∨ m = "OPTIONS") →
        RequestContextBuilder.build_data ctx (some d) =
          Except.ok { ctx with
            params := some (dictUpdate d (ctx.params.getD [])) } ∧
        ∀ k, dlookup (dictUpdate d (ctx.params.getD [])) k =
          match dlookup (ctx.params.getD []) k with
          | some v => some v
          | none => dlookup d k) ∧
      (¬ (m = "GET" ∨ m = "HEAD" ∨ m = "OPTIONS") →
        RequestContextBuilder.build_data ctx (some d) =
          Except.ok { ctx with json := some d }))
    ∧ (∀ (ctx : RequestContext) (data : Option (List (String × String))),
      pyDictFalsy data = true →
      RequestContextBuilder.build_data ctx data = Except.ok ctx)
    ∧ (∀ (endpoint : String) (oc : OperationContext),
      RequestContextBuilder.build endpoint oc =
        RequestContextBuilder.build_data
          (RequestContextBuilder.build_url oc.request_context endpoint
            oc.path) oc.data) := by
  refine ⟨?_, ?_, ?_⟩
  · intro ctx m d hm hd
    constructor
    · intro hbodyless
      refine ⟨?_, ?_⟩
      · simp [RequestContextBuilder.build_data, pyDictFalsy,
          List.isEmpty_iff, hd, hm, hbodyless]
      · intro k
        exact dlookup_append (ctx.params.getD []) d k
    · intro hbodyful
      simp [RequestContextBuilder.build_data, pyDictFalsy,
        List.isEmpty_iff, hd, hm, hbodyful]
  · intro ctx data hf
    simp [RequestContextBuilder.build_data, hf]
  · intro endpoint oc
    rfl

theorem claim2_witness :
    RequestContextBuilder.build_data
        (RequestContext.mk (some "GET") none (some [("a", "kept")]) none)
        (some [("a", "lost"), ("b", "2")]) =
      Except.ok { RequestContext.mk (some "GET") none
          (some [("a", "kept")]) none with
        params := some (dictUpdate [("a", "lost"), ("b", "2")]
          [("a", "kept")]) } ∧
    (dlookup (dictUpdate [("a", "lost"), ("b", "2")] [("a", "kept")]) "a" =
      match dlookup [("a", "kept")] "a" with
      | some v => some v
      | none => dlookup [("a", "lost"), ("b", "2")] "a") ∧
    RequestContextBuilder.build_data
        (RequestContext.mk (some "POST") none (some [("a", "kept")]) none)
        (some [("b", "2")]) =
      Except.ok { RequestContext.mk (some "POST") none
          (some [("a", "kept")]) none with
        json := some [("b", "2")] } ∧
    RequestContextBuilder.build_data
        (RequestContext.mk (some "POST") none none none) none =
      Except.ok (RequestContext.mk (some "POST") none none none) :=
  ⟨((claim2_build_data_placement.1
      (RequestContext.mk (some "GET") none (some [("a", "kept")]) none)
      "GET" [("a", "lost"), ("b", "2")] rfl (by decide)).1
      (Or.inl rfl)).1,
   ((claim2_build_data_placement.1
      (RequestContext.mk (some "GET") none (some [("a", "kept")]) none)
      "GET" [("a", "lost"), ("b", "2")] rfl (by decide)).1
      (Or.inl rfl)).2 "a",
   (claim2_build_data_placement.1
      (RequestContext.mk (some "POST") none (some [("a", "kept")]) none)
      "POST" [("b", "2")] rfl (by decide)).2 (by decide),
   claim2_build_data_placement.2.1
      (RequestContext.mk (some "POST") none none none) none rfl⟩

/-- C5 counterexample: `build` is not defined on every operation context
with optional method — on a non-empty data payload with no method key it
raises `KeyError("method")` from `build_data`'s `context["method"]`
subscript. -/
theorem claim5_counterexample :
    RequestContextBuilder.build "http://example.com"
        (OperationContext.mk (some [("a", "1")]) ""
          (RequestContext.mk none none none none)) =
      Except.error (BuildError.keyError "method") := rfl

/-- C5 (amended): `build` completes on every operation context whose data
payload is falsy or whose method key is present; on a non-empty data
payload with no method key it fails with `KeyError("method")`. -/
theorem claim5_build_totality :
    (∀ (endpoint : String) (oc : OperationContext),
      pyDictFalsy oc.data = true ∨ oc.request_context.method ≠ none →
      ∃ ctx, RequestContextBuilder.build endpoint oc = Except.ok ctx)
    ∧ (∀ (endpoint : String) (oc : OperationContext),
      pyDictFalsy oc.data = false → oc.request_context.method = none →
      RequestContextBuilder.build endpoint oc =
        Except.error (BuildError.keyError "method")) := by
  constructor
  · intro endpoint oc h
    rcases h with hf | hm
    · simp [RequestContextBuilder.build,
        RequestContextBuilder.build_request_context,
        RequestContextBuilder.build_data, hf]
    · cases hmm : oc.request_context.method with
      | none => exact absurd hmm hm
      | some m =>
        by_cases hf : pyDictFalsy oc.data = true
        · simp [RequestContextBuilder.build,
            RequestContextBuilder.build_request_context,
            RequestContextBuilder.build_data, hf]
        · have hf2 : pyDictFalsy oc.data = false := by
            simpa using hf
          by_cases hg : m = "GET" ∨ m = "HEAD" ∨ m = "OPTIONS"
          · simp [RequestContextBuilder.build,
              RequestContextBuilder.build_request_context,
              RequestContextBuilder.build_data,
              RequestContextBuilder.build_url, hf2, hmm, hg]
          · simp [RequestContextBuilder.build,
              RequestContextBuilder.build_request_context,
              RequestContextBuilder.build_data,
              RequestContextBuilder.build_url, hf2, hmm, hg]
  · intro endpoint oc hf hm
    simp [RequestContextBuilder.build,
      RequestContextBuilder.build_request_context,
      RequestContextBuilder.build_data,
      RequestContextBuilder.build_url, hf, hm]

theorem claim5_witness :
    (∃ ctx, RequestContextBuilder.build "http://example.com"
        (OperationContext.mk none "test"
          (RequestContext.mk none none none none)) = Except.ok ctx) ∧
    RequestContextBuilder.build "http://example.com"
        (OperationContext.mk (some [("a", "1")]) "test"
          (RequestContext.mk none none none none)) =
      Except.error (BuildError.keyError "method") :=
  ⟨claim5_build_totality.1 "http://example.com" _ (Or.inl rfl),
   claim5_build_totality.2 "http://example.com" _ rfl rfl⟩

/-- C1: `parse_response` on a present response applies the ordered
classification: a non-empty gateway error code raises
`APIGatewayResponseError` (the status code is not consulted, so this
holds even at 200), carrying the response and the headers representer
with a message built from the gateway's error message; otherwise an
error status raises `HTTPResponseError`; otherwise an undecodable body
raises `JSONResponseError`; otherwise the decoded data is returned. -/
theorem claim1_parse_response_classification :
    ∀ r : Response,
    ((ResponseHeadersRepresenter.mk
        (some r.headers)).has_apigateway_error = true →
      parse_response (some r) = Except.error
        (ClientError.APIGatewayResponseError
          ("Request bkapi error, " ++
            (ResponseHeadersRepresenter.mk (some r.headers)).error_message)
          r (ResponseHeadersRepresenter.mk (some r.headers))))
    ∧ ((ResponseHeadersRepresenter.mk
        (some r.headers)).has_apigateway_error = false →
      isErrorStatus r.status_code = true →
      parse_response (some r) = Except.error
        (ClientError.HTTPResponseError (httpErrorMessage r) r
          (ResponseHeadersRepresenter.mk (some r.headers))))
    ∧ ((ResponseHeadersRepresenter.mk
        (some r.headers)).has_apigateway_error = false →
      isErrorStatus r.status_code = false → r.body = none →
      parse_response (some r) = Except.error
        (ClientError.JSONResponseError "The response is not a valid JSON"
          r (ResponseHeadersRepresenter.mk (some r.headers))))
    ∧ (∀ j : Json,
      (ResponseHeadersRepresenter.mk
        (some r.headers)).has_apigateway_error = false →
      isErrorStatus r.status_code = false → r.body = some j →
      parse_response (some r) = Except.ok (some j)) := by
  intro r
  refine ⟨?_, ?_, ?_, ?_⟩
  · intro hgw
    simp [parse_response, handle_response_content, hgw]
  · intro hgw hst
    simp [parse_response, handle_response_content, hgw, hst]
  · intro hgw hst hb
    simp [parse_response, handle_response_content, hgw, hst, hb]
  · intro j hgw hst hb
    simp [parse_response, handle_response_content, hgw, hst, hb]

theorem claim1_witness :
    parse_response (some (Response.mk 200 "OK" "http://demo"
        [("X-Bkapi-Error-Code", "1000"),
         ("X-Bkapi-Error-Message", "invalid app")]
        (some (Json.obj [("a", Json.number 1)])))) =
      Except.error (ClientError.APIGatewayResponseError
        ("Request bkapi error, " ++
          (ResponseHeadersRepresenter.mk
            (some [("X-Bkapi-Error-Code", "1000"),
                   ("X-Bkapi-Error-Message", "invalid app")])).error_message)
        (Response.mk 200 "OK" "http://demo"
          [("X-Bkapi-Error-Code", "1000"),
           ("X-Bkapi-Error-Message", "invalid app")]
          (some (Json.obj [("a", Json.number 1)])))
        (ResponseHeadersRepresenter.mk
          (some [("X-Bkapi-Error-Code", "1000"),
                 ("X-Bkapi-Error-Message", "invalid app")]))) ∧
    parse_response (some (Response.mk 404 "Not Found" "http://demo" []
        none)) =
      Except.error (ClientError.HTTPResponseError
        (httpErrorMessage
          (Response.mk 404 "Not Found" "http://demo" [] none))
        (Response.mk 404 "Not Found" "http://demo" [] none)
        (ResponseHeadersRepresenter.mk (some []))) ∧
    parse_response (some (Response.mk 200 "OK" "http://demo" [] none)) =
      Except.error (ClientError.JSONResponseError
        "The response is not a valid JSON"
        (Response.mk 200 "OK" "http://demo" [] none)
        (ResponseHeadersRepresenter.mk (some []))) ∧
    parse_response (some (Response.mk 200 "OK" "http://demo" []
        (some (Json.obj [("a", Json.number 1)])))) =
      Except.ok (some (Json.obj [("a", Json.number 1)])) :=
  ⟨(claim1_parse_response_classification
      (Response.mk 200 "OK" "http://demo"
        [("X-Bkapi-Error-Code", "1000"),
         ("X-Bkapi-Error-Message", "invalid app")]
        (some (Json.obj [("a", Json.number 1)])))).1 (by decide),
   ((claim1_parse_response_classification
      (Response.mk 404 "Not Found" "http://demo" [] none)).2.1
      (by decide) (by decide)),
   ((claim1_parse_response_classification
      (Response.mk 200 "OK" "http://demo" [] none)).2.2.1
      (by decide) (by decide) rfl),
   ((claim1_parse_response_classification
      (Response.mk 200 "OK" "http://demo" []
        (some (Json.obj [("a", Json.number 1)])))).2.2.2
      (Json.obj [("a", Json.number 1)]) (by decide) (by decide) rfl)⟩

theorem handle_request_reuse_invariant (st : ClientState)
    (t : TransportResult) (h : st.reuse_session_connection = true) :
    (handle_request st t).2.closeCalls = st.closeCalls ∧
    (handle_request st t).2.reuse_session_connection = true := by
  by_cases he : st.endpoint = "" <;> cases t <;>
    simp [handle_request, he, h]

theorem runCalls_reuse_invariant (ops : List TransportResult) :
    ∀ st : ClientState, st.reuse_session_connection = true →
    (runCalls st ops).2.closeCalls = st.closeCalls ∧
    (runCalls st ops).2.reuse_session_connection = true := by
  induction ops with
  | nil => intro st h; exact ⟨rfl, h⟩
  | cons t rest ih =>
    intro st h
    have hinv := handle_request_reuse_invariant st t h
    cases hout : (handle_request st t).1 with
    | ok r =>
      have hrec := ih (handle_request st t).2 hinv.2
      simp only [runCalls, hout]
      exact ⟨hrec.1.trans hinv.1, hrec.2⟩
    | raised e =>
      simp only [runCalls, hout]
      exact hinv

/-- C3: outside a reuse scope every `handle_request` call closes the
session exactly once on every exit path; inside the enter/exit bracket
no call closes it, and the exit closes it exactly once, also when an
exception escaped the body. -/
theorem claim3_connection_lifecycle :
    (∀ (st : ClientState) (t : TransportResult),
      st.reuse_session_connection = false →
      (handle_request st t).2.closeCalls = st.closeCalls + 1)
    ∧ (∀ (st : ClientState) (ops : List TransportResult),
      (runCalls (clientEnter st) ops).2.closeCalls = st.closeCalls
      ∧ (withReuseScope st ops).2.closeCalls = st.closeCalls + 1) := by
  constructor
  · intro st t h
    by_cases he : st.endpoint = "" <;> cases t <;>
      simp [handle_request, he, h]
  · intro st ops
    have hin : (clientEnter st).reuse_session_connection = true := rfl
    have hrun := runCalls_reuse_invariant ops (clientEnter st) hin
    have hclose : (runCalls (clientEnter st) ops).2.closeCalls =
        st.closeCalls := hrun.1
    exact ⟨hclose, by simp [withReuseScope, clientExit, hclose]⟩

theorem claim3_witness :
    (handle_request (ClientState.init "http://e")
        (TransportResult.requestExc 7)).2.closeCalls = 0 + 1 ∧
    (runCalls (clientEnter (ClientState.init "http://e"))
        [TransportResult.success
          (Response.mk 200 "OK" "http://e" [] none),
         TransportResult.otherExc 3]).2.closeCalls = 0 ∧
    (withReuseScope (ClientState.init "http://e")
        [TransportResult.success
          (Response.mk 200 "OK" "http://e" [] none),
         TransportResult.otherExc 3]).2.closeCalls = 0 + 1 :=
  ⟨claim3_connection_lifecycle.1 (ClientState.init "http://e")
      (TransportResult.requestExc 7) rfl,
   (claim3_connection_lifecycle.2 (ClientState.init "http://e")
      [TransportResult.success (Response.mk 200 "OK" "http://e" [] none),
       TransportResult.otherExc 3]).1,
   (claim3_connection_lifecycle.2 (ClientState.init "http://e")
      [TransportResult.success (Response.mk 200 "OK" "http://e" [] none),
       TransportResult.otherExc 3]).2⟩

/-- C4: with an empty endpoint, `handle_request` raises
`EndpointNotSetError` and never reaches `session.handle`; construction
itself performs no check and no transport call, and the same state with
the endpoint set reaches the transport — the check is per call. -/
theorem claim4_endpoint_checked_per_call :
    (∀ (st : ClientState) (t : TransportResult),
      st.endpoint = "" →
      (handle_request st t).1 = Outcome.raised PyExc.endpointNotSet ∧
      (handle_request st t).2.handleCalls = st.handleCalls)
    ∧ (∀ e : String, (ClientState.init e).handleCalls = 0 ∧
        (ClientState.init e).closeCalls = 0)
    ∧ (∀ (st : ClientState) (t : TransportResult) (e : String),
      e ≠ "" →
      (handle_request { st with endpoint := e } t).2.handleCalls =
        st.handleCalls + 1) := by
  refine ⟨?_, ?_, ?_⟩
  · intro st t he
    by_cases hr : st.reuse_session_connection = true <;>
      cases t <;> simp [handle_request, he, hr]
  · intro e
    exact ⟨rfl, rfl⟩
  · intro st t e he
    by_cases hr : st.reuse_session_connection = true <;>
      cases t <;> simp [handle_request, he, hr]

theorem claim4_witness :
    (handle_request (ClientState.init "")
        (TransportResult.success
          (Response.mk 200 "OK" "http://e" [] none))).1 =
      Outcome.raised PyExc.endpointNotSet ∧
    (handle_request (ClientState.init "")
        (TransportResult.success
          (Response.mk 200 "OK" "http://e" [] none))).2.handleCalls = 0 ∧
    (handle_request { ClientState.init "" with endpoint := "http://e" }
        (TransportResult.success
          (Response.mk 200 "OK" "http://e" [] none))).2.handleCalls =
      0 + 1 :=
  ⟨(claim4_endpoint_checked_per_call.1 (ClientState.init "")
      (TransportResult.success
        (Response.mk 200 "OK" "http://e" [] none)) rfl).1,
   (claim4_endpoint_checked_per_call.1 (ClientState.init "")
      (TransportResult.success
        (Response.mk 200 "OK" "http://e" [] none)) rfl).2,
   claim4_endpoint_checked_per_call.2.2 (ClientState.init "")
      (TransportResult.success
        (Response.mk 200 "OK" "http://e" [] none)) "http://e"
      (by decide)⟩

/-- C8: a transport-layer exception raised by `session.handle` during
`handle_request` escapes unchanged — the same `RequestException` after
logging, and any other exception untouched as well; it is never
converted to another error type at this stage. -/
theorem claim8_transport_exception_reraised :
    (∀ (st : ClientState) (n : Nat), st.endpoint ≠ "" →
      (handle_request st (TransportResult.requestExc n)).1 =
        Outcome.raised (PyExc.requestExc n))
    ∧ (∀ (st : ClientState) (n : Nat), st.endpoint ≠ "" →
      (handle_request st (TransportResult.otherExc n)).1 =
        Outcome.raised (PyExc.otherExc n)) := by
  constructor
  · intro st n he
    by_cases hr : st.reuse_session_connection = true <;>
      simp [handle_request, he, hr]
  · intro st n he
    by_cases hr : st.reuse_session_connection = true <;>
      simp [handle_request, he, hr]

theorem claim8_witness :
    (handle_request (ClientState.init "http://e")
        (TransportResult.requestExc 5)).1 =
      Outcome.raised (PyExc.requestExc 5) ∧
    (handle_request (ClientState.init "http://e")
        (TransportResult.otherExc 9)).1 =
      Outcome.raised (PyExc.otherExc 9) :=
  ⟨claim8_transport_exception_reraised.1 (ClientState.init "http://e") 5
      (by decide),
   claim8_transport_exception_reraised.2 (ClientState.init "http://e") 9
      (by decide)⟩

end BkapiClientCore
